import Mathlib

/-!
Shallow embedding of the `jarvis_server` Home Assistant custom integration
(`custom_components/jarvis_server/config_flow.py` and
`custom_components/jarvis_server/conversation.py`).

The integration is a conversation agent that forwards user text to an
external HTTP server.  We model the Python code as pure Lean functions:
the HTTP layer is represented by an explicit request record plus an
oracle value describing the outcome of the single POST (either an
exception or a parsed JSON body), and the chat log is an explicit list
that the handler extends.
-/

namespace JarvisServer

/-- Python `s.rstrip("/")`: remove every trailing `'/'` character. -/
def rstripSlashes (s : String) : String :=
  String.mk (List.rdropWhile (fun c => c = '/') s.data)

/-- Python `s.strip()`: remove leading and trailing whitespace. -/
def pyStrip (s : String) : String :=
  String.mk (List.rdropWhile Char.isWhitespace (s.data.dropWhile Char.isWhitespace))

/-- Python truthiness of an optional string (`None` and `""` are falsy). -/
def pyTruthy : Option String → Bool
  | none => false
  | some s => s ≠ ""

/-- Python `a or b or ""` on two optional strings: the first truthy value,
defaulting to the empty string. -/
def pyOrDefault (a b : Option String) : String :=
  if pyTruthy a then a.getD "" else if pyTruthy b then b.getD "" else ""

/-- The integration domain constant (`const.py` `DOMAIN`). -/
def DOMAIN : String := "jarvis_server"

/-- Data collected by the config flow form: display name (`CONF_NAME`),
server base URL (`CONF_BASE_URL`), optional API key (`CONF_API_KEY`). -/
structure ConfigEntryData where
  name : String
  base_url : String
  api_key : String
deriving DecidableEq, Repr

/-- Result of one config-flow step, as returned by
`ConfigFlow.async_step_user`. -/
inductive FlowResult where
  | showForm
  | abortAlreadyConfigured
  | createEntry (title : String) (data : ConfigEntryData)
deriving DecidableEq, Repr

/-- Home Assistant state relevant to the flow: the configured entries of
this domain, each carrying the unique id set by the flow and its data. -/
structure HAState where
  entries : List (String × ConfigEntryData)
deriving DecidableEq, Repr

/-- Whether an entry with the given unique id is configured
(`self._abort_if_unique_id_configured` checks this). -/
def uniqueIdConfigured (state : HAState) (uid : String) : Bool :=
  state.entries.any (fun e => e.1 = uid)

/-- `ConfigFlow.async_step_user`: with no input, show the form; with input,
normalize the base URL by stripping trailing slashes, abort when the
domain-wide unique id is already configured, otherwise create an entry
titled with the submitted name. -/
def async_step_user (state : HAState) (user_input : Option ConfigEntryData) :
    FlowResult :=
  match user_input with
  | none => .showForm
  | some inp =>
      let normalized : ConfigEntryData :=
        { inp with base_url := rstripSlashes inp.base_url }
      if uniqueIdConfigured state DOMAIN then .abortAlreadyConfigured
      else .createEntry inp.name normalized

/-- Effect of a flow result on the Home Assistant state: a created entry is
stored under the flow's unique id (the domain); aborts and forms change
nothing. -/
def applyFlowResult (state : HAState) : FlowResult → HAState
  | .createEntry _ data => ⟨state.entries ++ [(DOMAIN, data)]⟩
  | _ => state

/-- `ConversationInput` fields used by the agent. -/
structure ConversationInput where
  text : String
  language : String
  conversation_id : Option String
  agent_id : String
deriving DecidableEq, Repr

/-- One assistant message appended to the chat log
(`AssistantContent(agent_id=..., content=...)`). -/
structure AssistantContent where
  agent_id : String
  content : String
deriving DecidableEq, Repr

/-- `intent.IntentResponse(language=...)` after `async_set_speech`. -/
structure IntentResponse where
  language : String
  speech : String
deriving DecidableEq, Repr

/-- `ConversationResult` as constructed by the agent. -/
structure ConversationResult where
  conversation_id : Option String
  response : IntentResponse
  continue_conversation : Bool
deriving DecidableEq, Repr

/-- JSON request payload built in `_call_server`. -/
structure Payload where
  text : String
  language : String
  conversation_id : Option String
  agent_id : String
deriving DecidableEq, Repr

/-- The single HTTP request issued by `_call_server`:
`self._session.post(url, json=payload, timeout=timeout)` — note that no
`headers=` argument is passed. -/
structure HttpRequest where
  method : String
  url : String
  payload : Payload
  timeout_total : Nat
  headers : List (String × String)
deriving DecidableEq, Repr

/-- The relevant fields of the server's JSON reply
(`data.get("text")`, `data.get("response")`). -/
structure JsonReply where
  text : Option String
  response : Option String
deriving DecidableEq, Repr

/-- Exceptions that the awaited call can raise: `raise_for_status` on a
non-2xx status, a timeout, a connection error, or any other exception
(caught by the blanket `except Exception`). -/
inductive ServerExc where
  | clientResponseError
  | timeoutError
  | clientConnectorError
  | other (name : String)
deriving DecidableEq, Repr

/-- Python `type(e).__name__` for the modelled exceptions. -/
def excTypeName : ServerExc → String
  | .clientResponseError => "ClientResponseError"
  | .timeoutError => "TimeoutError"
  | .clientConnectorError => "ClientConnectorError"
  | .other n => n

/-- `_ServerReply` dataclass. -/
structure ServerReply where
  text : String
deriving DecidableEq, Repr

/-- Agent state set in `JarvisServerConversationAgent.__init__`: the stored
base URL with trailing slashes stripped again. -/
structure AgentState where
  server_url : String
deriving DecidableEq, Repr

/-- `JarvisServerConversationAgent.__init__` reads `CONF_BASE_URL` from the
entry data and strips trailing slashes.  The API key is never read. -/
def agentInit (entry : ConfigEntryData) : AgentState :=
  { server_url := rstripSlashes entry.base_url }

/-- The request built by `_call_server`: a POST of the JSON payload
`text/language/conversation_id/agent_id` to `f"{self._server_url}/converse"`
with `aiohttp.ClientTimeout(total=15)` and no extra headers. -/
def buildRequest (server_url : String) (u : ConversationInput) : HttpRequest :=
  { method := "POST"
    url := server_url ++ "/converse"
    payload :=
      { text := u.text
        language := u.language
        conversation_id := u.conversation_id
        agent_id := u.agent_id }
    timeout_total := 15
    headers := [] }

/-- Reply-text extraction in `_call_server`:
`(data.get("text") or data.get("response") or "").strip()`, with the fixed
fallback when the stripped value is empty. -/
def extractReplyText (data : JsonReply) : String :=
  let text := pyStrip (pyOrDefault data.text data.response)
  if text = "" then "Ok, Jarvis will help" else text

/-- Outcome of the single awaited POST: the raised exception, or the parsed
JSON body of a 2xx reply. -/
def ServerOutcome : Type := Except ServerExc JsonReply

/-- `_call_server`: returns the request it issues together with either the
raised exception or the extracted `_ServerReply`. -/
def call_server (server_url : String) (u : ConversationInput)
    (outcome : ServerOutcome) : HttpRequest × Except ServerExc ServerReply :=
  (buildRequest server_url u,
    match outcome with
    | .error e => .error e
    | .ok data => .ok ⟨extractReplyText data⟩)

/-- The error message format used by the blanket exception handler in
`_async_handle_message`. -/
def errorMessage (e : ServerExc) : String :=
  "Could not reach the server (" ++ excTypeName e ++ ")."

/-- `_error_result`: append the message to the chat log and return a normal
`ConversationResult` speaking it. -/
def error_result (u : ConversationInput) (chat : List AssistantContent)
    (message : String) : List AssistantContent × ConversationResult :=
  (chat ++ [⟨u.agent_id, message⟩],
    { conversation_id := u.conversation_id
      response := { language := u.language, speech := message }
      continue_conversation := false })

/-- Everything observable about one run of the handler: the HTTP requests it
issued, the chat log afterwards, and the returned result. -/
structure HandleOutcome where
  requests : List HttpRequest
  chat : List AssistantContent
  result : ConversationResult
deriving DecidableEq, Repr

/-- `_async_handle_message`: call the server once; on success append the
reply to the chat log and speak it; on any exception return
`_error_result` with the formatted message. -/
def async_handle_message (server_url : String) (u : ConversationInput)
    (chat : List AssistantContent) (outcome : ServerOutcome) : HandleOutcome :=
  let (req, res) := call_server server_url u outcome
  match res with
  | .ok reply =>
      { requests := [req]
        chat := chat ++ [⟨u.agent_id, reply.text⟩]
        result :=
          { conversation_id := u.conversation_id
            response := { language := u.language, speech := reply.text }
            continue_conversation := false } }
  | .error e =>
      let er := error_result u chat (errorMessage e)
      { requests := [req], chat := er.1, result := er.2 }

/-- Amended description of `extractReplyText` (claim C9, corrected): the
reply is built from the first Python-truthy field in the fixed order
`text` then `response` (a whitespace-only `text` is truthy and shadows
`response`); the chosen value is stripped, and the fixed fallback is used
exactly when the stripped chosen value is empty. -/
def amendedReplyText (data : JsonReply) : String :=
  let chosen : String :=
    match data.text with
    | some s =>
        if s ≠ "" then s
        else
          match data.response with
          | some r => if r ≠ "" then r else ""
          | none => ""
    | none =>
        match data.response with
        | some r => if r ≠ "" then r else ""
        | none => ""
  if pyStrip chosen = "" then "Ok, Jarvis will help" else pyStrip chosen

/-- Helper: stripping trailing slashes is idempotent, so the agent stripping
the already-normalized stored URL again changes nothing. -/
theorem rstripSlashes_idem (s : String) :
    rstripSlashes (rstripSlashes s) = rstripSlashes s :=
  congrArg String.mk (List.rdropWhile_idempotent _ _)

/-- Helper: the normalized base URL never ends in a slash. -/
theorem rstripSlashes_last_ne_slash (s : String) :
    (rstripSlashes s).data.getLast? ≠ some '/' := by
  intro h
  have hmem : '/' ∈ (rstripSlashes s).data.getLast? := by
    rw [h]; exact rfl
  obtain ⟨hne, hlast⟩ := List.mem_getLast?_eq_getLast hmem
  have hnot :=
    List.rdropWhile_last_not (fun c => c = '/') s.data
      (by exact hne)
  exact hnot (by simpa using hlast.symm)

/-- C1: for every handled message whose HTTP call succeeds, the text
extracted from the JSON reply is both appended to the chat log as assistant
content and set as the speech of the returned ConversationResult. -/
theorem C1_relay_success (server_url : String) (u : ConversationInput)
    (chat : List AssistantContent) (data : JsonReply) :
    (async_handle_message server_url u chat (.ok data)).result.response.speech
        = extractReplyText data ∧
    (async_handle_message server_url u chat (.ok data)).chat
        = chat ++ [⟨u.agent_id, extractReplyText data⟩] :=
  ⟨rfl, rfl⟩

/-- C2: when the HTTP call fails (non-2xx, timeout, connection error, or any
other exception), the handler does not propagate the failure: it returns a
normal ConversationResult whose speech is the human-readable error string
chosen for that failure kind, and the messages for the distinct failure
kinds are pairwise distinct. -/
theorem C2_error_mapped (server_url : String) (u : ConversationInput)
    (chat : List AssistantContent) (e : ServerExc) :
    (async_handle_message server_url u chat (.error e)).result =
      { conversation_id := u.conversation_id
        response := { language := u.language, speech := errorMessage e }
        continue_conversation := false } ∧
    errorMessage .clientResponseError ≠ errorMessage .timeoutError ∧
    errorMessage .clientResponseError ≠ errorMessage .clientConnectorError ∧
    errorMessage .timeoutError ≠ errorMessage .clientConnectorError :=
  ⟨rfl, by decide, by decide, by decide⟩

/-- C3: the config flow enforces a single configured instance: when an entry
of this integration is already configured, submitting the user step again
aborts and leaves the state unchanged (no second entry); when none is
configured, it creates an entry titled with the given display name. -/
theorem C3_single_instance (state : HAState) (inp : ConfigEntryData) :
    (uniqueIdConfigured state DOMAIN = true →
      async_step_user state (some inp) = .abortAlreadyConfigured ∧
      applyFlowResult state (async_step_user state (some inp)) = state) ∧
    (uniqueIdConfigured state DOMAIN = false →
      async_step_user state (some inp) =
        .createEntry inp.name { inp with base_url := rstripSlashes inp.base_url }) := by
  constructor
  · intro h
    simp [async_step_user, h, applyFlowResult]
  · intro h
    simp [async_step_user, h]

/-- Witness for C3 at concrete states: one configured entry makes a second
submission abort; an empty state makes the submission create the entry. -/
theorem C3_single_instance_witness :
    async_step_user ⟨[("jarvis_server", ⟨"A", "http://a", ""⟩)]⟩
        (some ⟨"B", "http://b/", "k"⟩) = .abortAlreadyConfigured ∧
    async_step_user ⟨[]⟩ (some ⟨"B", "http://b/", "k"⟩) =
      .createEntry "B" ⟨"B", "http://b", "k"⟩ := by
  constructor
  · exact ((C3_single_instance ⟨[("jarvis_server", ⟨"A", "http://a", ""⟩)]⟩
      ⟨"B", "http://b/", "k"⟩).1 (by decide)).1
  · have h := (C3_single_instance ⟨[]⟩ ⟨"B", "http://b/", "k"⟩).2 (by decide)
    rw [h]
    decide

/-- C4: for every handled message, the (single) request is a POST of the
JSON payload built from the utterance (text, language, conversation id,
agent id) to the one fixed path `/converse` under the configured base URL. -/
theorem C4_post_fixed_path (server_url : String) (u : ConversationInput)
    (chat : List AssistantContent) (outcome : Except ServerExc JsonReply) :
    (async_handle_message server_url u chat outcome).requests
        = [buildRequest server_url u] ∧
    (buildRequest server_url u).method = "POST" ∧
    (buildRequest server_url u).url = server_url ++ "/converse" ∧
    (buildRequest server_url u).payload =
      { text := u.text
        language := u.language
        conversation_id := u.conversation_id
        agent_id := u.agent_id } := by
  cases outcome <;> exact ⟨rfl, rfl, rfl, rfl⟩

/-- C5 counterexample: with a configured non-empty API key, the forwarded
HTTP request carries no headers at all — in particular no bearer auth
header — contradicting the claim that a configured key is sent. -/
theorem C5_counterexample :
    (⟨"Jarvis", "http://192.168.1.50:8080", "secret-key"⟩ : ConfigEntryData).api_key ≠ "" ∧
    (buildRequest
        (agentInit ⟨"Jarvis", "http://192.168.1.50:8080", "secret-key"⟩).server_url
        ⟨"hello", "en", some "c1", "agent-1"⟩).headers = [] :=
  ⟨by decide, rfl⟩

/-- C5 amended: the config flow collects and stores the optional API key in
the entry data, but the agent never reads it: its state does not depend on
the key and the forwarded request carries no headers, so no authentication
is performed. -/
theorem C5_api_key_never_sent (entry : ConfigEntryData) (u : ConversationInput)
    (k : String) :
    (buildRequest (agentInit entry).server_url u).headers = [] ∧
    agentInit { entry with api_key := k } = agentInit entry ∧
    ({ entry with base_url := rstripSlashes entry.base_url } : ConfigEntryData).api_key
        = entry.api_key :=
  ⟨rfl, rfl, rfl⟩

/-- C6: the conversation id is a pure pass-through: on both the success and
the error path the returned result's conversation_id equals the
caller-supplied one, and the same id is the one forwarded in the request
payload. -/
theorem C6_conversation_id_passthrough (server_url : String)
    (u : ConversationInput) (chat : List AssistantContent)
    (outcome : Except ServerExc JsonReply) :
    (async_handle_message server_url u chat outcome).result.conversation_id
        = u.conversation_id ∧
    (async_handle_message server_url u chat outcome).requests.map
        (fun r => r.payload.conversation_id) = [u.conversation_id] := by
  cases outcome <;> exact ⟨rfl, rfl⟩

/-- C7: for every handled message and every server behaviour, exactly one
HTTP call is awaited (hence at most one, and a failed call is never
retried), and that call carries the 15-second total timeout. -/
theorem C7_single_timed_call (server_url : String) (u : ConversationInput)
    (chat : List AssistantContent) (outcome : Except ServerExc JsonReply) :
    (async_handle_message server_url u chat outcome).requests.length = 1 ∧
    (async_handle_message server_url u chat outcome).requests.map
        (fun r => r.timeout_total) = [15] := by
  cases outcome <;> exact ⟨rfl, rfl⟩

/-- C8: the handler is total over every server outcome, including every
exception kind: it always returns a ConversationResult with
continue_conversation false, and on every path exactly one assistant
message — carrying the spoken text — is appended to the chat log. -/
theorem C8_never_raises (server_url : String) (u : ConversationInput)
    (chat : List AssistantContent) (outcome : Except ServerExc JsonReply) :
    (async_handle_message server_url u chat outcome).result.continue_conversation
        = false ∧
    (async_handle_message server_url u chat outcome).chat =
      chat ++ [⟨u.agent_id,
        (async_handle_message server_url u chat outcome).result.response.speech⟩] := by
  cases outcome <;> exact ⟨rfl, rfl⟩

/-- C9 counterexample: with reply fields `text = "   "` (whitespace only)
and `response = "hello"`, the reply does contain a non-empty
stripped value under an accepted field (`"hello"`), yet the code yields the
fallback string instead of that value: the truthy whitespace-only `text`
short-circuits the `or` chain before `response` is consulted. -/
theorem C9_counterexample :
    pyStrip "hello" = "hello" ∧
    ("hello" : String) ≠ "" ∧
    extractReplyText ⟨some "   ", some "hello"⟩ = "Ok, Jarvis will help" ∧
    extractReplyText ⟨some "   ", some "hello"⟩ ≠ "hello" := by
  refine ⟨by decide, by decide, by decide, by decide⟩

/-- C9 amended: the reply text is computed from the first Python-truthy
field in the fixed order `text` then `response` (a whitespace-only `text`
shadows `response`), stripped; the fixed fallback is used exactly when that
stripped value is empty; consequently the relayed reply text is never
empty. -/
theorem C9_first_truthy_then_fallback (data : JsonReply) :
    extractReplyText data = amendedReplyText data ∧
    extractReplyText data ≠ "" := by
  constructor
  · rcases data with ⟨t, r⟩
    cases t <;> cases r <;>
      simp [extractReplyText, amendedReplyText, pyOrDefault, pyTruthy]
  · rcases data with ⟨t, r⟩
    simp only [extractReplyText]
    split_ifs with h
    · decide
    · exact h

/-- C10: the flow stores the submitted URL with all trailing slashes
stripped, the agent's second strip is a no-op on it, the request URL is
exactly that normalized base followed by `/converse`, and the normalized
base never ends in a slash — so a single slash separates base and path. -/
theorem C10_base_url_normalization (inp : ConfigEntryData) (u : ConversationInput) :
    async_step_user ⟨[]⟩ (some inp) =
      .createEntry inp.name { inp with base_url := rstripSlashes inp.base_url } ∧
    (agentInit { inp with base_url := rstripSlashes inp.base_url }).server_url
        = rstripSlashes inp.base_url ∧
    (buildRequest
        (agentInit { inp with base_url := rstripSlashes inp.base_url }).server_url
        u).url
        = rstripSlashes inp.base_url ++ "/converse" ∧
    (rstripSlashes inp.base_url).data.getLast? ≠ some '/' := by
  refine ⟨rfl, ?_, ?_, rstripSlashes_last_ne_slash inp.base_url⟩
  · exact rstripSlashes_idem inp.base_url
  · show rstripSlashes (rstripSlashes inp.base_url) ++ "/converse"
        = rstripSlashes inp.base_url ++ "/converse"
    rw [rstripSlashes_idem]

end JarvisServer
